import Mathlib

/-!
A shallow embedding of the position synchronisation and render pipeline of
src/gui/PositionFrame.py (classes PositionUpdater, LabelScaleSpinbox,
RenderDiagram and PositionFrame), together with theorems settling the
frozen claims about it.

Numbers: the Python code moves plain Python ints through the sliders,
spinboxes and queues, so those are modelled as Int.  The geometry in
RenderDiagram.update_render is numpy floating point; it is modelled over
the rationals with the trigonometric primitives (np.cos, np.sin, np.pi)
kept abstract as a record of functions, since every claim about that code
concerns the structure of the computation and not float rounding.
-/

namespace SurvivorBuddy

/-- A set_pitch / set_yaw / set_roll command sent to the SerialArmController
(the arm capability). -/
inductive ArmCommand where
  | setPitch (v : Int)
  | setYaw (v : Int)
  | setRoll (v : Int)
deriving DecidableEq

/-- The state of one LabelScaleSpinbox: configured bounds (from_, to), the
axis index (0 pitch, 1 yaw, 2 roll), the displayed slider value, the
displayed spinbox value, and the stored current_value. -/
structure ControlState where
  min : Int
  max : Int
  axis : Nat
  slider : Int
  spinbox : Int
  current_value : Int
deriving DecidableEq

/-- LabelScaleSpinbox.send_command: when the arm controller reports
is_connected, send the single axis-appropriate command carrying
current_value; otherwise do nothing. -/
def send_command (is_connected : Bool) (c : ControlState) : List ArmCommand :=
  if is_connected then
    if c.axis = 0 then [ArmCommand.setPitch c.current_value]
    else if c.axis = 1 then [ArmCommand.setYaw c.current_value]
    else if c.axis = 2 then [ArmCommand.setRoll c.current_value]
    else []
  else []

/-- LabelScaleSpinbox.set_slider: read the spinbox value, set the slider to
it, store it as current_value, then send_command.  (The int() parse of the
spinbox cannot fail here because the spinbox display is modelled
numerically.)  Returns the new control state and the commands sent. -/
def set_slider (is_connected : Bool) (c : ControlState) : ControlState × List ArmCommand :=
  let val := c.spinbox
  let c2 := { c with slider := val, current_value := val }
  (c2, send_command is_connected c2)

/-- LabelScaleSpinbox.sliderUpdate (bound to slider button release): read the
slider, mirror it into the spinbox, store it as current_value, then
send_command. -/
def sliderUpdate (is_connected : Bool) (c : ControlState) : ControlState × List ArmCommand :=
  let newVal := c.slider
  let c2 := { c with spinbox := newVal, current_value := newVal }
  (c2, send_command is_connected c2)

/-- Result of pressing one of the directional move buttons: the control
state afterwards, the commands sent to the arm, and the notification lines
appended to the NotificationsFrame. -/
structure ButtonResult where
  ctrl : ControlState
  commands : List ArmCommand
  notifications : List String
deriving DecidableEq

/-- LabelScaleSpinbox.incrementUp ("Move up"): newVal = spinbox + 5; if
newVal >= 90 only a notification is appended, otherwise the spinbox,
current_value and slider are updated and send_command runs (once inside
set_slider and once more directly, as in the source). -/
def incrementUp (is_connected : Bool) (c : ControlState) : ButtonResult :=
  let newVal := c.spinbox + 5
  if newVal ≥ 90 then
    ⟨c, [], ["Error: Can\x27t Move Up Any Farther"]⟩
  else
    let c2 := { c with spinbox := newVal, current_value := newVal }
    let p := set_slider is_connected c2
    ⟨p.1, p.2 ++ send_command is_connected p.1, []⟩

/-- LabelScaleSpinbox.incrementRight ("Move right"): step +20, threshold
newVal >= 90. -/
def incrementRight (is_connected : Bool) (c : ControlState) : ButtonResult :=
  let newVal := c.spinbox + 20
  if newVal ≥ 90 then
    ⟨c, [], ["Error: Can\x27t Move Right Any Farther"]⟩
  else
    let c2 := { c with spinbox := newVal, current_value := newVal }
    let p := set_slider is_connected c2
    ⟨p.1, p.2 ++ send_command is_connected p.1, []⟩

/-- LabelScaleSpinbox.decrementLeft ("Move left"): step -20, threshold
newVal <= -90. -/
def decrementLeft (is_connected : Bool) (c : ControlState) : ButtonResult :=
  let newVal := c.spinbox - 20
  if newVal ≤ -90 then
    ⟨c, [], ["Error: Can\x27t Move Left Any Farther"]⟩
  else
    let c2 := { c with spinbox := newVal, current_value := newVal }
    let p := set_slider is_connected c2
    ⟨p.1, p.2 ++ send_command is_connected p.1, []⟩

/-- LabelScaleSpinbox.decrementDown ("Move down"): step -5, threshold
newVal <= 0 (a fixed literal 0, not the configured minimum). -/
def decrementDown (is_connected : Bool) (c : ControlState) : ButtonResult :=
  let newVal := c.spinbox - 5
  if newVal ≤ 0 then
    ⟨c, [], ["Error: Can\x27t Move Down Any Farther"]⟩
  else
    let c2 := { c with spinbox := newVal, current_value := newVal }
    let p := set_slider is_connected c2
    ⟨p.1, p.2 ++ send_command is_connected p.1, []⟩

/-- Decimal digit run accumulator for pyInt?, none on an empty run or a
non-digit character. -/
def parseDigits (l : List Char) : Option Nat :=
  if l = [] then none
  else l.foldl
    (fun acc c => acc.bind (fun n => if c.isDigit then some (n * 10 + (c.toNat - 48)) else none))
    (some 0)

/-- Models the Python int(text) builtin used by validate_spinbox inside
its try/except: an optional sign followed by one or more decimal digits
(whitespace trimming and digit grouping are not modelled); none when the
text is not an integer literal, standing for the ValueError branch. -/
def pyInt? (s : String) : Option Int :=
  match s.data with
  | '-' :: rest => (parseDigits rest).map (fun n => -(n : Int))
  | '+' :: rest => (parseDigits rest).map (fun n => (n : Int))
  | l => (parseDigits l).map (fun n => (n : Int))

/-- Result of running the focus-out validation on the spinbox: the control
state afterwards, whether validation succeeded (False triggers the
invalidcommand report), and the commands sent (validate_spinbox contains
no send_command call on any path, so this is always empty). -/
structure ValidateResult where
  ctrl : ControlState
  ok : Bool
  commands : List ArmCommand
deriving DecidableEq

/-- LabelScaleSpinbox.validate_spinbox on the entered text `val`: parse it
with int(); on parse failure or a value outside [min, max], write
current_value back into the spinbox and return False; otherwise set the
slider to the parsed value and return True (Tk keeps the accepted text in
the spinbox, modelled by spinbox := ival).  current_value is never touched
and no command is ever sent. -/
def validate_spinbox (c : ControlState) (val : String) : ValidateResult :=
  match pyInt? val with
  | some ival =>
      if ival < c.min ∨ ival > c.max then
        ⟨{ c with spinbox := c.current_value }, false, []⟩
      else
        ⟨{ c with slider := ival, spinbox := ival }, true, []⟩
  | none => ⟨{ c with spinbox := c.current_value }, false, []⟩

/-- The abstract trigonometric primitives of the numpy geometry: np.cos,
np.sin and np.pi, kept as parameters so that the segment computation can
be stated and evaluated without committing to float semantics. -/
structure TrigOps where
  cos : ℚ → ℚ
  sin : ℚ → ℚ
  pi : ℚ

/-- One ax.quiver call: start point (sx, sy, sz), direction (dx, dy, dz),
the length argument, the arrow_length_ratio argument (field frac) and the
color string. -/
structure Seg where
  sx : ℚ
  sy : ℚ
  sz : ℚ
  dx : ℚ
  dy : ℚ
  dz : ℚ
  len : ℚ
  frac : ℚ
  color : String
deriving DecidableEq

/-- RenderDiagram.draw_axes: the eight fixed quiver segments of the static
arm base (pose independent). -/
def draw_axes_segments : List Seg :=
  [⟨-1, 1.5, 0, 0, -3, 0, 1, 0, "#727985"⟩,
   ⟨1, 1.5, 0, 0, -3, 0, 1, 0, "#727985"⟩,
   ⟨-0.4, 1.5, 0, 0, -1, 0, 1, 0, "#727985"⟩,
   ⟨0.4, 1.5, 0, 0, -1, 0, 1, 0, "#727985"⟩,
   ⟨1, 1.5, 0, -0.6, 0, 0, 1, 0, "#727985"⟩,
   ⟨-1, 1.5, 0, 0.6, 0, 0, 1, 0, "#727985"⟩,
   ⟨0.4, 0.5, 0, -0.8, 0, 0, 1, 0, "#727985"⟩,
   ⟨1, -1.5, 0, -2, 0, 0, 1, 0, "#727985"⟩]

/-- The ten pose-dependent quiver segments of RenderDiagram.update_render,
with yaw, pitch, roll already converted to radians: four arm wireframe
segments, the heading vector, the four phone rectangle edges, and the
arrow marking the phone top. -/
def pose_segments (t : TrigOps) (yaw pitch roll : ℚ) : List Seg :=
  [⟨0.2, 1, 0, 0, -t.cos pitch, t.sin pitch, 2, 0, "#a83e32"⟩,
   ⟨-0.2, 1, 0, 0, -t.cos pitch, t.sin pitch, 2, 0, "#a83e32"⟩,
   ⟨0.2, 1, 0, -0.4, 0, 0, 1, 0, "#a83e32"⟩,
   ⟨0.2, -t.cos pitch * 2 + 1, t.sin pitch * 2, -0.4, 0, 0, 1, 0, "#a83e32"⟩,
   ⟨0, -t.cos pitch * 1.75 + 1, t.sin pitch * 1.75,
    -t.sin yaw, t.sin (pitch + t.pi) * t.cos yaw, t.cos (pitch + t.pi) * t.cos yaw,
    2, 0.25, "#32a852"⟩,
   ⟨0.5 * t.cos roll + 0.75 * t.sin roll,
    -2.5 * t.cos pitch + 1.25 * t.sin roll * t.sin roll * t.cos pitch + 1,
    -0.5 * t.sin roll * t.sin pitch + (t.sin pitch * 0.75) * t.cos roll + t.sin pitch * 1.75,
    -1 * t.cos roll, -1 * t.sin roll * t.sin roll * t.cos pitch, 1 * t.sin roll * t.sin pitch,
    1, 0, "#3e48d6"⟩,
   ⟨0.5 * t.cos roll + 0.75 * t.sin roll,
    -2.5 * t.cos pitch + 1.25 * t.sin roll * t.sin roll * t.cos pitch + 1,
    -0.5 * t.sin roll * t.sin pitch + (t.sin pitch * 0.75) * t.cos roll + t.sin pitch * 1.75,
    -1.5 * t.sin roll, 1.5 * t.cos roll * t.cos roll * t.cos pitch, -1.5 * t.cos roll * t.sin pitch,
    1, 0, "#3e48d6"⟩,
   ⟨-0.5 * t.cos roll + 0.75 * (-t.sin roll),
    -1 * t.cos pitch - 1.25 * t.sin roll * t.sin roll * t.cos pitch + 1,
    0.5 * t.sin roll * t.sin pitch + (t.sin pitch * 0.75) * (-t.cos roll) + t.sin pitch * 1.75,
    1 * t.cos roll, 1 * t.sin roll * t.sin roll * t.cos pitch, -1 * t.sin roll * t.sin pitch,
    1, 0, "#3e48d6"⟩,
   ⟨-0.5 * t.cos roll + 0.75 * (-t.sin roll),
    -1 * t.cos pitch - 1.25 * t.sin roll * t.sin roll * t.cos pitch + 1,
    0.5 * t.sin roll * t.sin pitch + (t.sin pitch * 0.75) * (-t.cos roll) + t.sin pitch * 1.75,
    1.5 * t.sin roll, -1.5 * t.cos roll * t.cos roll * t.cos pitch, 1.5 * t.cos roll * t.sin pitch,
    1, 0, "#3e48d6"⟩,
   ⟨0, -t.cos pitch * 1.75 + 1, t.sin pitch * 1.75,
    0.75 * t.sin roll, -0.75 * t.cos roll * t.cos pitch, 0.75 * t.cos roll * t.sin pitch,
    1, 0.5, "#0917de"⟩]

/-- Side effects of one update_render call other than emitting segments:
ax.clear() wiping the previous frame, and render_canvas.draw() pushing the
frame to the screen. -/
inductive RenderEffect where
  | clearAxes
  | canvasDraw
deriving DecidableEq

/-- The mutable pose state of RenderDiagram: the degree values yawD,
pitchD, rollD of the last rendered pose (initialised to 0). -/
structure RenderDiagram where
  yawD : Int
  pitchD : Int
  rollD : Int
deriving DecidableEq

/-- Result of one RenderDiagram.update_render call: the RenderDiagram state
afterwards, the full list of segments drawn this frame (base plus pose),
and the other side effects in order. -/
structure RenderResult where
  diagram : RenderDiagram
  segments : List Seg
  effects : List RenderEffect
deriving DecidableEq

/-- RenderDiagram.update_render: clear the axes, redraw the base, convert
the angles to radians (yaw negated), store the raw values into yawD,
pitchD, rollD, emit the pose segments, and draw the canvas.  The previous
diagram state is accepted as an argument but never read. -/
def update_render (t : TrigOps) (_rd : RenderDiagram) (new_yaw new_pitch new_roll : Int) :
    RenderResult :=
  let yaw : ℚ := -(new_yaw : ℚ) * t.pi / 180
  let pitch : ℚ := (new_pitch : ℚ) * t.pi / 180
  let roll : ℚ := (new_roll : ℚ) * t.pi / 180
  ⟨⟨new_yaw, new_pitch, new_roll⟩,
   draw_axes_segments ++ pose_segments t yaw pitch roll,
   [RenderEffect.clearAxes, RenderEffect.canvasDraw]⟩

/-- The log line written by PositionFrame.process_queue for a changed pose:
timestamp ++ " - Position: P: " ++ pitch ++ " Y: " ++ yaw ++ " R: " ++
roll ++ newline. -/
def logLine (timestamp : String) (newPitch newYaw newRoll : Int) : String :=
  timestamp ++ " - Position: P: " ++ toString newPitch ++ " Y: " ++ toString newYaw
    ++ " R: " ++ toString newRoll ++ "\n"

/-- The guarded insertion the poller performs on each per-axis LifoQueue:
put(v) only when empty() currently holds, otherwise leave the queue
unchanged.  The queue is a list with its most recent element in front. -/
def put_if_empty (q : List Int) (v : Int) : List Int :=
  if q.isEmpty then v :: q else q

/-- The joint state of the pipeline: the poller thread locals pitch, yaw,
roll (pitchV, yawV, rollV, initialised to 0), the three LabelScaleSpinbox
controls, the three per-axis queues, the RenderDiagram, the log file
contents, the accumulated render effects, the NotificationsFrame lines,
and the number of close() calls issued to the arm controller. -/
structure SysState where
  pitchV : Int
  yawV : Int
  rollV : Int
  pitch_control : ControlState
  yaw_control : ControlState
  roll_control : ControlState
  yaw_queue : List Int
  pitch_queue : List Int
  roll_queue : List Int
  pos_render : RenderDiagram
  log : List String
  effects : List RenderEffect
  notifications : List String
  closeCalls : Nat
deriving DecidableEq

/-- PositionFrame.process_queue (one 50ms cycle): when all three queues are
non-empty, get one value from each, append a log line when the triple
differs from the last rendered pose, and call update_render
unconditionally; when any queue is empty, do nothing. -/
def process_queue (t : TrigOps) (timestamp : String) (s : SysState) : SysState :=
  if s.yaw_queue.isEmpty ∨ s.pitch_queue.isEmpty ∨ s.roll_queue.isEmpty then s
  else
    let newYaw := s.yaw_queue.headI
    let newPitch := s.pitch_queue.headI
    let newRoll := s.roll_queue.headI
    let log2 :=
      if newYaw ≠ s.pos_render.yawD ∨ newPitch ≠ s.pos_render.pitchD
          ∨ newRoll ≠ s.pos_render.rollD then
        s.log ++ [logLine timestamp newPitch newYaw newRoll]
      else s.log
    let r := update_render t s.pos_render newYaw newPitch newRoll
    { s with
      yaw_queue := s.yaw_queue.tail,
      pitch_queue := s.pitch_queue.tail,
      roll_queue := s.roll_queue.tail,
      pos_render := r.diagram,
      log := log2,
      effects := s.effects ++ r.effects }

/-- What the environment presents to one poller cycle: the arm is connected
and update_position succeeds reporting a position, the arm is connected
but update_position raises, or the arm is not connected. -/
inductive CycleInput where
  | connectedOk (pitch yaw roll : Int)
  | connectedErr
  | disconnected
deriving DecidableEq

/-- The slider.set(v) and spinbox.set(v) pair the poller performs on a
control when connected. -/
def set_display (c : ControlState) (v : Int) : ControlState :=
  { c with slider := v, spinbox := v }

/-- The tail of every poller cycle: offer the current pitch, yaw, roll
locals to the three queues, each guarded by an emptiness check. -/
def enqueue_samples (s : SysState) : SysState :=
  { s with
    yaw_queue := put_if_empty s.yaw_queue s.yawV,
    pitch_queue := put_if_empty s.pitch_queue s.pitchV,
    roll_queue := put_if_empty s.roll_queue s.rollV }

/-- One iteration of PositionUpdater.run: when connected and the refresh
succeeds, load the reported position into the locals and push it into the
sliders and spinboxes; when the refresh raises, append the disconnect
warning and call close() on the arm controller, leaving the locals as they
were; when not connected, read the locals from the spinboxes.  In every
case the cycle then offers the locals to the queues. -/
def poller_cycle (inp : CycleInput) (s : SysState) : SysState :=
  match inp with
  | CycleInput.connectedOk p y r =>
      enqueue_samples { s with
        pitchV := p, yawV := y, rollV := r,
        pitch_control := set_display s.pitch_control p,
        yaw_control := set_display s.yaw_control y,
        roll_control := set_display s.roll_control r }
  | CycleInput.connectedErr =>
      enqueue_samples { s with
        notifications := s.notifications ++ ["WARNING: DEVICE DISCONNECTED"],
        closeCalls := s.closeCalls + 1 }
  | CycleInput.disconnected =>
      enqueue_samples { s with
        pitchV := s.pitch_control.spinbox,
        yawV := s.yaw_control.spinbox,
        rollV := s.roll_control.spinbox }

/-- PositionUpdater.run initialises its locals yaw = 0, pitch = 0,
roll = 0 before entering the loop. -/
def poller_init (s : SysState) : SysState :=
  { s with pitchV := 0, yawV := 0, rollV := 0 }

/-- A finite prefix of the poller loop, one cycle per input. -/
def poller_run (inps : List CycleInput) (s : SysState) : SysState :=
  inps.foldl (fun st i => poller_cycle i st) s

/-- One scheduled event of the whole pipeline: a poller cycle (background
thread) or a process_queue cycle (UI timer).  These are the only two
pieces of code that touch the three queues. -/
inductive SysEvent where
  | poll (inp : CycleInput)
  | render (timestamp : String)

/-- Effect of one scheduled event on the joint state. -/
def sys_step (t : TrigOps) (s : SysState) : SysEvent → SysState
  | SysEvent.poll inp => poller_cycle inp s
  | SysEvent.render ts => process_queue t ts s

/-- A finite interleaving of poller and renderer cycles. -/
def sys_run (t : TrigOps) (s : SysState) (evs : List SysEvent) : SysState :=
  evs.foldl (sys_step t) s

/-!  Concrete sample states used to evaluate the model. -/

/-- A trivial trig instance used to evaluate the geometry model at
concrete inputs. -/
def trig0 : TrigOps := ⟨fun _ => 1, fun _ => 0, 3⟩

/-- A pitch control as configured in create_controls (from_ 0, to 90,
axis 0), displaying and storing the value v. -/
def pitchCtrl (v : Int) : ControlState := ⟨0, 90, 0, v, v, v⟩

/-- A yaw control as configured in create_controls (from_ -90, to 90,
axis 1), displaying and storing the value v. -/
def yawCtrl (v : Int) : ControlState := ⟨-90, 90, 1, v, v, v⟩

/-- A roll control as configured in create_controls (from_ 0, to 90,
axis 2), displaying and storing the value v. -/
def rollCtrl (v : Int) : ControlState := ⟨0, 90, 2, v, v, v⟩

/-- The pipeline state right after construction: locals zero, all controls
at zero, all queues empty, RenderDiagram at (0, 0, 0), empty log, no
effects, no notifications, no close calls. -/
def sys0 : SysState :=
  ⟨0, 0, 0, pitchCtrl 0, yawCtrl 0, rollCtrl 0, [], [], [], ⟨0, 0, 0⟩, [], [], [], 0⟩

/-- sys0 with every queue holding the sample 0, matching the render state. -/
def sysZeroFull : SysState :=
  { sys0 with yaw_queue := [0], pitch_queue := [0], roll_queue := [0] }

/-!  C5: directional button boundary behaviour. -/

/-- C5: a directional button press is rejected exactly when the stepped
spinbox value reaches or exceeds the legacy threshold — which under the
configured limits (max = 90 for the pitch and yaw controls, min = -90 for
yaw) is the boundary test newVal >= max for the increasing buttons,
newVal <= min for yaw left, and the fixed newVal <= 0 for pitch down; a
rejected press leaves the control unchanged, sends no command and appends
exactly one notification line. -/
theorem directional_button_boundaries (conn : Bool) (c : ControlState) :
    (c.max = 90 → (((incrementUp conn c).notifications ≠ []) ↔ c.spinbox + 5 ≥ c.max)) ∧
    (c.spinbox + 5 ≥ 90 →
      incrementUp conn c = ⟨c, [], ["Error: Can\x27t Move Up Any Farther"]⟩) ∧
    (c.max = 90 → (((incrementRight conn c).notifications ≠ []) ↔ c.spinbox + 20 ≥ c.max)) ∧
    (c.spinbox + 20 ≥ 90 →
      incrementRight conn c = ⟨c, [], ["Error: Can\x27t Move Right Any Farther"]⟩) ∧
    (c.min = -90 → (((decrementLeft conn c).notifications ≠ []) ↔ c.spinbox - 20 ≤ c.min)) ∧
    (c.spinbox - 20 ≤ -90 →
      decrementLeft conn c = ⟨c, [], ["Error: Can\x27t Move Left Any Farther"]⟩) ∧
    (((decrementDown conn c).notifications ≠ []) ↔ c.spinbox - 5 ≤ 0) ∧
    (c.spinbox - 5 ≤ 0 →
      decrementDown conn c = ⟨c, [], ["Error: Can\x27t Move Down Any Farther"]⟩) := by
  refine ⟨?_, ?_, ?_, ?_, ?_, ?_, ?_, ?_⟩
  · intro hmax
    rw [hmax]
    by_cases hc : c.spinbox + 5 ≥ 90 <;> simp [incrementUp, hc]
  · intro hc
    simp only [incrementUp]
    rw [if_pos hc]
  · intro hmax
    rw [hmax]
    by_cases hc : c.spinbox + 20 ≥ 90 <;> simp [incrementRight, hc]
  · intro hc
    simp only [incrementRight]
    rw [if_pos hc]
  · intro hmin
    rw [hmin]
    by_cases hc : c.spinbox - 20 ≤ -90 <;> simp [decrementLeft, hc]
  · intro hc
    simp only [decrementLeft]
    rw [if_pos hc]
  · by_cases hc : c.spinbox - 5 ≤ 0 <;> simp [decrementDown, hc]
  · intro hc
    simp only [decrementDown]
    rw [if_pos hc]

/-- C5 witness: pitch up from 86, yaw right from 75, yaw left from -75 and
pitch down from 3 are all rejected with the control untouched, no command,
and one notification. -/
theorem directional_button_boundaries_witness :
    incrementUp true (pitchCtrl 86)
      = ⟨pitchCtrl 86, [], ["Error: Can\x27t Move Up Any Farther"]⟩ ∧
    incrementRight true (yawCtrl 75)
      = ⟨yawCtrl 75, [], ["Error: Can\x27t Move Right Any Farther"]⟩ ∧
    decrementLeft true (yawCtrl (-75))
      = ⟨yawCtrl (-75), [], ["Error: Can\x27t Move Left Any Farther"]⟩ ∧
    decrementDown true (pitchCtrl 3)
      = ⟨pitchCtrl 3, [], ["Error: Can\x27t Move Down Any Farther"]⟩ :=
  ⟨(directional_button_boundaries true (pitchCtrl 86)).2.1 (by decide),
   (directional_button_boundaries true (yawCtrl 75)).2.2.2.1 (by decide),
   (directional_button_boundaries true (yawCtrl (-75))).2.2.2.2.2.1 (by decide),
   (directional_button_boundaries true (pitchCtrl 3)).2.2.2.2.2.2.2 (by decide)⟩

/-!  C6 and C7: spinbox focus-out validation. -/

/-- C6 counterexample: a valid in-range edit (yaw box text "40" with
current value 10) is accepted by the validator and mirrored to the
slider, but the stored current_value stays 10 (not 40) and no command is
sent to the arm, contradicting the claim that the value is accepted as
current value and the command is sent. -/
theorem validate_spinbox_no_command_counterexample :
    (validate_spinbox (yawCtrl 10) "40").ok = true ∧
    (validate_spinbox (yawCtrl 10) "40").ctrl.slider = 40 ∧
    (validate_spinbox (yawCtrl 10) "40").ctrl.current_value = 10 ∧
    (validate_spinbox (yawCtrl 10) "40").commands = [] := by decide

/-- C6 (amended): on focus-out with text parsing to an integer within
[min, max], validation succeeds and the value is mirrored to the slider
(the accepted text remaining displayed), but current_value is left
unchanged and no command is sent to the arm capability. -/
theorem validate_spinbox_valid_input (c : ControlState) (val : String) (i : Int)
    (hparse : pyInt? val = some i) (hlo : c.min ≤ i) (hhi : i ≤ c.max) :
    validate_spinbox c val = ⟨{ c with slider := i, spinbox := i }, true, []⟩ := by
  simp only [validate_spinbox, hparse]
  rw [if_neg (by omega)]

/-- C6 witness: the amended statement evaluated on the yaw control at 10
with entered text "40". -/
theorem validate_spinbox_valid_input_witness :
    validate_spinbox (yawCtrl 10) "40"
      = ⟨{ yawCtrl 10 with slider := 40, spinbox := 40 }, true, []⟩ :=
  validate_spinbox_valid_input (yawCtrl 10) "40" 40 (by decide) (by decide) (by decide)

/-- C7: on focus-out with text that does not parse as an integer or parses
outside [min, max], the edit is rejected: current_value and the slider are
unchanged, the previous current_value is written back into the spinbox,
validation reports failure, and no command is sent. -/
theorem validate_spinbox_invalid_input (c : ControlState) (val : String)
    (h : pyInt? val = none ∨ ∃ i, pyInt? val = some i ∧ (i < c.min ∨ i > c.max)) :
    validate_spinbox c val = ⟨{ c with spinbox := c.current_value }, false, []⟩ := by
  rcases h with h | ⟨i, hi, hout⟩
  · simp only [validate_spinbox, h]
  · simp only [validate_spinbox, hi]
    rw [if_pos hout]

/-- C7 witness: the non-numeric text "abc" and the out-of-range text "100"
are both rejected on the yaw control at 10. -/
theorem validate_spinbox_invalid_input_witness :
    validate_spinbox (yawCtrl 10) "abc"
      = ⟨{ yawCtrl 10 with spinbox := (yawCtrl 10).current_value }, false, []⟩ ∧
    validate_spinbox (yawCtrl 10) "100"
      = ⟨{ yawCtrl 10 with spinbox := (yawCtrl 10).current_value }, false, []⟩ :=
  ⟨validate_spinbox_invalid_input (yawCtrl 10) "abc" (Or.inl (by decide)),
   validate_spinbox_invalid_input (yawCtrl 10) "100"
     (Or.inr ⟨100, by decide, Or.inr (by decide)⟩)⟩

/-!  C8: disconnected mode. -/

/-- C8: while the arm reports not connected, a poll cycle takes each axis
value from that axis spinbox display and publishes those values on the
empty queues; no set_pitch / set_yaw / set_roll command is sent by any
slider or spinbox path (send_command is a no-op while disconnected,
though the moved value is still stored as current_value). -/
theorem disconnected_cycle_reads_controls (s : SysState)
    (hy : s.yaw_queue = []) (hp : s.pitch_queue = []) (hr : s.roll_queue = []) :
    (poller_cycle CycleInput.disconnected s =
      { s with
        pitchV := s.pitch_control.spinbox,
        yawV := s.yaw_control.spinbox,
        rollV := s.roll_control.spinbox,
        yaw_queue := [s.yaw_control.spinbox],
        pitch_queue := [s.pitch_control.spinbox],
        roll_queue := [s.roll_control.spinbox] }) ∧
    (∀ c : ControlState, send_command false c = []) ∧
    (∀ c : ControlState,
      (sliderUpdate false c).2 = [] ∧ (sliderUpdate false c).1.current_value = c.slider) ∧
    (∀ c : ControlState,
      (set_slider false c).2 = [] ∧ (set_slider false c).1.current_value = c.spinbox) := by
  refine ⟨?_, ?_, ?_, ?_⟩
  · simp [poller_cycle, enqueue_samples, put_if_empty, hy, hp, hr]
  · intro c; simp [send_command]
  · intro c; simp [sliderUpdate, send_command]
  · intro c; simp [set_slider, send_command]

/-- C8 witness: the disconnected cycle evaluated on the freshly constructed
pipeline state. -/
theorem disconnected_cycle_reads_controls_witness :
    poller_cycle CycleInput.disconnected sys0 =
      { sys0 with
        pitchV := sys0.pitch_control.spinbox,
        yawV := sys0.yaw_control.spinbox,
        rollV := sys0.roll_control.spinbox,
        yaw_queue := [sys0.yaw_control.spinbox],
        pitch_queue := [sys0.pitch_control.spinbox],
        roll_queue := [sys0.roll_control.spinbox] } :=
  (disconnected_cycle_reads_controls sys0 rfl rfl rfl).1

/-!  C3: the renderer drains all three queues or none. -/

/-- C3: a process_queue cycle dequeues exactly one sample from each queue
when all three are non-empty, and when any queue is empty it changes
nothing at all (no dequeue, no log write, no render, no error) and simply
waits for the next cycle. -/
theorem process_queue_all_or_nothing (t : TrigOps) (ts : String) (s : SysState) :
    ((s.yaw_queue.isEmpty ∨ s.pitch_queue.isEmpty ∨ s.roll_queue.isEmpty) →
      process_queue t ts s = s) ∧
    (¬(s.yaw_queue.isEmpty ∨ s.pitch_queue.isEmpty ∨ s.roll_queue.isEmpty) →
      ((process_queue t ts s).yaw_queue = s.yaw_queue.tail ∧
       (process_queue t ts s).pitch_queue = s.pitch_queue.tail ∧
       (process_queue t ts s).roll_queue = s.roll_queue.tail ∧
       (process_queue t ts s).yaw_queue.length + 1 = s.yaw_queue.length ∧
       (process_queue t ts s).pitch_queue.length + 1 = s.pitch_queue.length ∧
       (process_queue t ts s).roll_queue.length + 1 = s.roll_queue.length)) := by
  constructor
  · intro h
    simp only [process_queue, if_pos h]
  · intro h
    have hy : s.yaw_queue ≠ [] := fun hnil => h (Or.inl (by simp [hnil]))
    have hp : s.pitch_queue ≠ [] := fun hnil => h (Or.inr (Or.inl (by simp [hnil])))
    have hr : s.roll_queue ≠ [] := fun hnil => h (Or.inr (Or.inr (by simp [hnil])))
    have hylen : 0 < s.yaw_queue.length := List.length_pos.mpr hy
    have hplen : 0 < s.pitch_queue.length := List.length_pos.mpr hp
    have hrlen : 0 < s.roll_queue.length := List.length_pos.mpr hr
    simp only [process_queue, if_neg h]
    refine ⟨?_, ?_, ?_, ?_, ?_, ?_⟩ <;>
      first
        | trivial
        | (rw [List.length_tail]; omega)

/-- C3 witness: evaluated on a state with one sample in every queue and on
a state with every queue empty. -/
theorem process_queue_all_or_nothing_witness :
    process_queue trig0 "00:00:00" sys0 = sys0 ∧
    ((process_queue trig0 "00:00:00" sysZeroFull).yaw_queue
        = sysZeroFull.yaw_queue.tail ∧
     (process_queue trig0 "00:00:00" sysZeroFull).pitch_queue
        = sysZeroFull.pitch_queue.tail ∧
     (process_queue trig0 "00:00:00" sysZeroFull).roll_queue
        = sysZeroFull.roll_queue.tail ∧
     (process_queue trig0 "00:00:00" sysZeroFull).yaw_queue.length + 1
        = sysZeroFull.yaw_queue.length ∧
     (process_queue trig0 "00:00:00" sysZeroFull).pitch_queue.length + 1
        = sysZeroFull.pitch_queue.length ∧
     (process_queue trig0 "00:00:00" sysZeroFull).roll_queue.length + 1
        = sysZeroFull.roll_queue.length) :=
  ⟨(process_queue_all_or_nothing trig0 "00:00:00" sys0).1 (by decide),
   (process_queue_all_or_nothing trig0 "00:00:00" sysZeroFull).2 (by decide)⟩

/-!  C4: determinism and effects of update_render. -/

/-- C4 counterexample: update_render is not free of state mutation and
redraw effects of its own — called with yaw 5 on a diagram whose stored
pose is (0, 0, 0) it overwrites the stored pose, and its effect list
contains the ax.clear() screen wipe and the render_canvas.draw() redraw. -/
theorem update_render_effects_counterexample :
    (update_render trig0 ⟨0, 0, 0⟩ 5 0 0).diagram ≠ (⟨0, 0, 0⟩ : RenderDiagram) ∧
    (update_render trig0 ⟨0, 0, 0⟩ 5 0 0).effects
      = [RenderEffect.clearAxes, RenderEffect.canvasDraw] := by decide

/-- C4 (amended): the pose-to-geometry computation of update_render is
deterministic and independent of the previous render state — for every
pose (in particular every pose inside the configured ranges) two
invocations with equal inputs produce identical segment lists regardless
of the prior diagram state — but update_render itself also clears the
axes, redraws the canvas and overwrites the stored last-rendered pose
with its inputs. -/
theorem update_render_deterministic (t : TrigOps) (rd1 rd2 : RenderDiagram)
    (y p r : Int) :
    (update_render t rd1 y p r).segments = (update_render t rd2 y p r).segments ∧
    (update_render t rd1 y p r).diagram = ⟨y, p, r⟩ ∧
    (update_render t rd1 y p r).effects
      = [RenderEffect.clearAxes, RenderEffect.canvasDraw] :=
  ⟨rfl, rfl, rfl⟩

/-!  C9: a drain of an unchanged triple. -/

/-- C9 counterexample: draining the triple (0, 0, 0) while the last
rendered pose is already (0, 0, 0) appends no log line but still runs
update_render — the accumulated effects grow by the ax.clear() and
render_canvas.draw() of a full redraw, contradicting the claim that the
projector and redraw are not invoked for an unchanged triple. -/
theorem process_queue_redraw_counterexample :
    (process_queue trig0 "00:00:00" sysZeroFull).log = sysZeroFull.log ∧
    (process_queue trig0 "00:00:00" sysZeroFull).effects
      = sysZeroFull.effects ++ [RenderEffect.clearAxes, RenderEffect.canvasDraw] ∧
    (process_queue trig0 "00:00:00" sysZeroFull).effects ≠ sysZeroFull.effects := by
  decide

/-- C9 (amended): when the drained triple equals every component of the
last rendered pose, no log line is appended and the render state is
(re)written with the drained triple — so it is unchanged — but the cycle
is not otherwise a no-op: update_render is invoked unconditionally, so the
clear and canvas redraw happen on every drain, changed or not. -/
theorem process_queue_identical_triple (t : TrigOps) (ts : String) (s : SysState)
    (hy : s.yaw_queue ≠ []) (hp : s.pitch_queue ≠ []) (hr : s.roll_queue ≠ [])
    (hyv : s.yaw_queue.headI = s.pos_render.yawD)
    (hpv : s.pitch_queue.headI = s.pos_render.pitchD)
    (hrv : s.roll_queue.headI = s.pos_render.rollD) :
    (process_queue t ts s).log = s.log ∧
    (process_queue t ts s).pos_render = s.pos_render ∧
    (process_queue t ts s).effects
      = s.effects ++ [RenderEffect.clearAxes, RenderEffect.canvasDraw] := by
  have hcond : ¬(s.yaw_queue.isEmpty ∨ s.pitch_queue.isEmpty ∨ s.roll_queue.isEmpty) := by
    simp [List.isEmpty_iff, hy, hp, hr]
  refine ⟨?_, ?_, ?_⟩ <;> simp only [process_queue, if_neg hcond, update_render]
  · rw [if_neg (by simp [hyv, hpv, hrv])]
  · rw [hyv, hpv, hrv]

/-- C9 witness: the amended statement evaluated on the state holding the
triple (0, 0, 0) with the render state already at (0, 0, 0). -/
theorem process_queue_identical_triple_witness :
    (process_queue trig0 "11:22:33" sysZeroFull).log = sysZeroFull.log ∧
    (process_queue trig0 "11:22:33" sysZeroFull).pos_render = sysZeroFull.pos_render ∧
    (process_queue trig0 "11:22:33" sysZeroFull).effects
      = sysZeroFull.effects ++ [RenderEffect.clearAxes, RenderEffect.canvasDraw] :=
  process_queue_identical_triple trig0 "11:22:33" sysZeroFull
    (by decide) (by decide) (by decide) (by decide) (by decide) (by decide)

/-!  Shared lemmas about whole poll-render rounds. -/

/-- One poll-then-render round starting from empty queues: the poller
fills every queue with the reported triple and the renderer immediately
drains it, logging exactly when the triple differs from the last rendered
pose, and redrawing unconditionally. -/
theorem drain_round (t : TrigOps) (ts : String) (p y r : Int) (s : SysState)
    (hy : s.yaw_queue = []) (hp : s.pitch_queue = []) (hr : s.roll_queue = []) :
    process_queue t ts (poller_cycle (CycleInput.connectedOk p y r) s) =
      { s with
        pitchV := p, yawV := y, rollV := r,
        pitch_control := set_display s.pitch_control p,
        yaw_control := set_display s.yaw_control y,
        roll_control := set_display s.roll_control r,
        yaw_queue := [], pitch_queue := [], roll_queue := [],
        pos_render := ⟨y, p, r⟩,
        log := if y ≠ s.pos_render.yawD ∨ p ≠ s.pos_render.pitchD
                  ∨ r ≠ s.pos_render.rollD then
                 s.log ++ [logLine ts p y r]
               else s.log,
        effects := s.effects ++ [RenderEffect.clearAxes, RenderEffect.canvasDraw] } := by
  have h1 : poller_cycle (CycleInput.connectedOk p y r) s =
      { s with
        pitchV := p, yawV := y, rollV := r,
        pitch_control := set_display s.pitch_control p,
        yaw_control := set_display s.yaw_control y,
        roll_control := set_display s.roll_control r,
        yaw_queue := [y], pitch_queue := [p], roll_queue := [r] } := by
    simp [poller_cycle, enqueue_samples, put_if_empty, hy, hp, hr]
  rw [h1]
  simp only [process_queue]
  rw [if_neg (by simp)]
  simp [update_render]

/-- The event sequence of n busy rounds, each one poller cycle reporting
the same triple followed by one renderer cycle. -/
def drainEvents (ts : String) (p y r : Int) : Nat → List SysEvent
  | 0 => []
  | n + 1 => SysEvent.poll (CycleInput.connectedOk p y r) :: SysEvent.render ts ::
      drainEvents ts p y r n

/-- Once the render state already equals the repeatedly drained triple,
further rounds leave the log, the render state and the queues unchanged. -/
theorem drain_rounds_stable (t : TrigOps) (ts : String) (p y r : Int) (n : Nat)
    (s : SysState) (hy : s.yaw_queue = []) (hp : s.pitch_queue = [])
    (hr : s.roll_queue = []) (hrd : s.pos_render = ⟨y, p, r⟩) :
    (sys_run t s (drainEvents ts p y r n)).log = s.log ∧
    (sys_run t s (drainEvents ts p y r n)).pos_render = s.pos_render ∧
    (sys_run t s (drainEvents ts p y r n)).yaw_queue = [] ∧
    (sys_run t s (drainEvents ts p y r n)).pitch_queue = [] ∧
    (sys_run t s (drainEvents ts p y r n)).roll_queue = [] := by
  induction n generalizing s with
  | zero => exact ⟨rfl, rfl, hy, hp, hr⟩
  | succ m ih =>
    have hstep := drain_round t ts p y r s hy hp hr
    rw [hrd] at hstep
    simp only [RenderDiagram.mk.injEq] at hstep
    rw [if_neg (by simp)] at hstep
    have hrun : sys_run t s (drainEvents ts p y r (m + 1))
        = sys_run t (process_queue t ts (poller_cycle (CycleInput.connectedOk p y r) s))
            (drainEvents ts p y r m) := rfl
    rw [hrun, hstep]
    refine ⟨(ih _ rfl rfl rfl rfl).1, ?_, (ih _ rfl rfl rfl rfl).2.2.1,
      (ih _ rfl rfl rfl rfl).2.2.2.1, (ih _ rfl rfl rfl rfl).2.2.2.2⟩
    rw [hrd]
    exact (ih _ rfl rfl rfl rfl).2.1

/-!  C1: logging is driven by pose change. -/

/-- C1 counterexample: two consecutive drains of the identical triple
(0, 0, 0) starting from the initial render state (0, 0, 0) append 0 log
lines, not exactly 1, so N identical drains do not always produce exactly
one line. -/
theorem repeated_identical_drain_counterexample :
    (sys_run trig0 sys0 (drainEvents "00:00:00" 0 0 0 2)).log.length = 0 := by decide

/-- C1 (amended): a drain cycle appends exactly one log line of the form
timestamp - Position: P: pitch Y: yaw R: roll, and it does so if and only
if some component of the drained triple differs from the last rendered
triple; consequently N >= 1 consecutive drains of an identical triple that
differs from the render state before the first drain append exactly one
log line (and zero lines when it already equals the render state). -/
theorem drained_triple_logging (t : TrigOps) (ts : String) :
    (∀ s : SysState, s.yaw_queue ≠ [] → s.pitch_queue ≠ [] → s.roll_queue ≠ [] →
      (process_queue t ts s).log =
        (if s.yaw_queue.headI ≠ s.pos_render.yawD
            ∨ s.pitch_queue.headI ≠ s.pos_render.pitchD
            ∨ s.roll_queue.headI ≠ s.pos_render.rollD then
          s.log ++ [logLine ts s.pitch_queue.headI s.yaw_queue.headI s.roll_queue.headI]
        else s.log)) ∧
    (∀ (s : SysState) (p y r : Int) (n : Nat),
      s.yaw_queue = [] → s.pitch_queue = [] → s.roll_queue = [] →
      (y ≠ s.pos_render.yawD ∨ p ≠ s.pos_render.pitchD ∨ r ≠ s.pos_render.rollD) →
      1 ≤ n →
      (sys_run t s (drainEvents ts p y r n)).log = s.log ++ [logLine ts p y r]) := by
  constructor
  · intro s hy hp hr
    have hcond : ¬(s.yaw_queue.isEmpty ∨ s.pitch_queue.isEmpty ∨ s.roll_queue.isEmpty) := by
      simp [List.isEmpty_iff, hy, hp, hr]
    simp only [process_queue, if_neg hcond]
  · intro s p y r n hy hp hr hdiff hn
    obtain ⟨m, rfl⟩ : ∃ m, n = m + 1 := ⟨n - 1, by omega⟩
    have hstep := drain_round t ts p y r s hy hp hr
    rw [if_pos hdiff] at hstep
    have hrun : sys_run t s (drainEvents ts p y r (m + 1))
        = sys_run t (process_queue t ts (poller_cycle (CycleInput.connectedOk p y r) s))
            (drainEvents ts p y r m) := rfl
    rw [hrun, hstep]
    exact (drain_rounds_stable t ts p y r m _ rfl rfl rfl rfl).1

/-- sys0 with the queues holding yaw 1, pitch 2, roll 3. -/
def sysOneFull : SysState :=
  { sys0 with yaw_queue := [1], pitch_queue := [2], roll_queue := [3] }

/-- C1 witness: a single drain of the changed triple appends exactly the
formatted line, and three consecutive drains of that same triple still
leave exactly one line in the log. -/
theorem drained_triple_logging_witness :
    (process_queue trig0 "09:09:09" sysOneFull).log = [logLine "09:09:09" 2 1 3] ∧
    (sys_run trig0 sys0 (drainEvents "09:09:09" 2 1 3 3)).log
      = [logLine "09:09:09" 2 1 3] := by
  constructor
  · have h := (drained_triple_logging trig0 "09:09:09").1 sysOneFull
      (by decide) (by decide) (by decide)
    simpa [sysOneFull, sys0] using h
  · have h := (drained_triple_logging trig0 "09:09:09").2 sys0 2 1 3 3
      rfl rfl rfl (by decide) (by decide)
    simpa [sys0] using h

/-!  C2: the single-slot queue discipline. -/

/-- The one-unread-sample bound on every per-axis queue. -/
def queuesBounded (s : SysState) : Prop :=
  s.yaw_queue.length ≤ 1 ∧ s.pitch_queue.length ≤ 1 ∧ s.roll_queue.length ≤ 1

/-- The guarded insertion preserves the one-sample bound. -/
theorem put_if_empty_length (q : List Int) (v : Int) (h : q.length ≤ 1) :
    (put_if_empty q v).length ≤ 1 := by
  cases q with
  | nil => simp [put_if_empty]
  | cons a l => simpa [put_if_empty] using h

/-- Every poller cycle preserves the one-sample bound. -/
theorem poller_cycle_bounded (inp : CycleInput) (s : SysState) (h : queuesBounded s) :
    queuesBounded (poller_cycle inp s) := by
  obtain ⟨hy, hp, hr⟩ := h
  cases inp <;>
    exact ⟨put_if_empty_length _ _ hy, put_if_empty_length _ _ hp,
      put_if_empty_length _ _ hr⟩

/-- Every renderer cycle preserves the one-sample bound. -/
theorem process_queue_bounded (t : TrigOps) (ts : String) (s : SysState)
    (h : queuesBounded s) : queuesBounded (process_queue t ts s) := by
  obtain ⟨hy, hp, hr⟩ := h
  unfold process_queue
  split
  · exact ⟨hy, hp, hr⟩
  · exact ⟨by simp [List.length_tail]; omega, by simp [List.length_tail]; omega,
      by simp [List.length_tail]; omega⟩

/-- The one-sample bound holds along every interleaving. -/
theorem sys_run_bounded (t : TrigOps) (evs : List SysEvent) :
    ∀ s : SysState, queuesBounded s → queuesBounded (sys_run t s evs) := by
  induction evs with
  | nil => intro s h; exact h
  | cons e evs ih =>
    intro s h
    cases e with
    | poll inp => exact ih _ (poller_cycle_bounded inp s h)
    | render ts => exact ih _ (process_queue_bounded t ts s h)

/-- C2: under every interleaving of poller cycles and renderer cycles —
the only two code paths touching the queues — each per-axis queue holds
at most one unread sample at all times; the producer-side guard inserts
only into a currently empty queue and otherwise leaves the queue contents
unchanged for that cycle, so a slot becomes insertable again only once
the consumer has removed its sample. -/
theorem queue_single_slot_invariant (t : TrigOps) (s : SysState)
    (h : queuesBounded s) (evs : List SysEvent) :
    queuesBounded (sys_run t s evs) ∧
    (∀ (q : List Int) (v : Int), ¬q.isEmpty → put_if_empty q v = q) ∧
    (∀ (q : List Int) (v : Int), q.isEmpty → put_if_empty q v = v :: q) := by
  refine ⟨sys_run_bounded t evs s h, ?_, ?_⟩
  · intro q v hq
    simp [put_if_empty, hq]
  · intro q v hq
    simp [put_if_empty, hq]

/-- A short concrete interleaving: two poll cycles back to back (the
second finding the queues full), one render, one failing poll. -/
def evs0 : List SysEvent :=
  [SysEvent.poll (CycleInput.connectedOk 1 2 3),
   SysEvent.poll (CycleInput.connectedOk 4 5 6),
   SysEvent.render "12:00:00",
   SysEvent.poll CycleInput.connectedErr]

/-- C2 witness: the invariant evaluated on a concrete interleaving from
the initial state. -/
theorem queue_single_slot_invariant_witness :
    queuesBounded (sys_run trig0 sys0 evs0) ∧
    (∀ (q : List Int) (v : Int), ¬q.isEmpty → put_if_empty q v = q) ∧
    (∀ (q : List Int) (v : Int), q.isEmpty → put_if_empty q v = v :: q) :=
  queue_single_slot_invariant trig0 sys0 ⟨by decide, by decide, by decide⟩ evs0

/-!  C10: a failing refresh still feeds the render pipeline. -/

/-- C10: when a connected poll cycle fails, the poller appends the
disconnect warning, calls close() on the arm capability, and still offers
a triple to the (empty) queues — the pitch, yaw, roll locals retained from
the previous cycle, which are 0, 0, 0 when no cycle has succeeded yet and
the last successfully reported triple after an ok-poll, render, fail-poll
sequence — so the renderer keeps receiving the stale last-known pose. -/
theorem error_cycle_keeps_stale_pose (s : SysState)
    (hy : s.yaw_queue = []) (hp : s.pitch_queue = []) (hr : s.roll_queue = []) :
    (poller_cycle CycleInput.connectedErr s =
      { s with
        notifications := s.notifications ++ ["WARNING: DEVICE DISCONNECTED"],
        closeCalls := s.closeCalls + 1,
        yaw_queue := [s.yawV], pitch_queue := [s.pitchV], roll_queue := [s.rollV] }) ∧
    ((poller_run [CycleInput.connectedErr] (poller_init s)).yaw_queue = [0] ∧
     (poller_run [CycleInput.connectedErr] (poller_init s)).pitch_queue = [0] ∧
     (poller_run [CycleInput.connectedErr] (poller_init s)).roll_queue = [0]) ∧
    (∀ (t : TrigOps) (ts : String) (p y r : Int),
      (sys_run t s [SysEvent.poll (CycleInput.connectedOk p y r), SysEvent.render ts,
          SysEvent.poll CycleInput.connectedErr]).yaw_queue = [y] ∧
      (sys_run t s [SysEvent.poll (CycleInput.connectedOk p y r), SysEvent.render ts,
          SysEvent.poll CycleInput.connectedErr]).pitch_queue = [p] ∧
      (sys_run t s [SysEvent.poll (CycleInput.connectedOk p y r), SysEvent.render ts,
          SysEvent.poll CycleInput.connectedErr]).roll_queue = [r]) := by
  refine ⟨?_, ?_, ?_⟩
  · simp [poller_cycle, enqueue_samples, put_if_empty, hy, hp, hr]
  · simp [poller_run, poller_init, poller_cycle, enqueue_samples, put_if_empty, hy, hp, hr]
  · intro t ts p y r
    have hstep := drain_round t ts p y r s hy hp hr
    have hrun : sys_run t s [SysEvent.poll (CycleInput.connectedOk p y r),
        SysEvent.render ts, SysEvent.poll CycleInput.connectedErr]
        = poller_cycle CycleInput.connectedErr
            (process_queue t ts (poller_cycle (CycleInput.connectedOk p y r) s)) := rfl
    rw [hrun, hstep]
    refine ⟨?_, ?_, ?_⟩ <;> simp [poller_cycle, enqueue_samples, put_if_empty]

/-- C10 witness: the failing cycle evaluated on the freshly constructed
pipeline state. -/
theorem error_cycle_keeps_stale_pose_witness :
    (poller_cycle CycleInput.connectedErr sys0 =
      { sys0 with
        notifications := sys0.notifications ++ ["WARNING: DEVICE DISCONNECTED"],
        closeCalls := sys0.closeCalls + 1,
        yaw_queue := [sys0.yawV], pitch_queue := [sys0.pitchV],
        roll_queue := [sys0.rollV] }) ∧
    ((poller_run [CycleInput.connectedErr] (poller_init sys0)).yaw_queue = [0] ∧
     (poller_run [CycleInput.connectedErr] (poller_init sys0)).pitch_queue = [0] ∧
     (poller_run [CycleInput.connectedErr] (poller_init sys0)).roll_queue = [0]) :=
  ⟨(error_cycle_keeps_stale_pose sys0 rfl rfl rfl).1,
   (error_cycle_keeps_stale_pose sys0 rfl rfl rfl).2.1⟩

end SurvivorBuddy
